import Mathlib

/-
Verification of the process/server core of the lunatic rust-lib repository
(src/src/process/server.rs): the request/response actor, the spawn handshake
for captured state, tag correlation, and linking.

The embedding is shallow.  Functions of server.rs are translated directly;
the host capabilities and library pieces that server.rs only calls (Tag,
Mailbox, the process scheduler, the uuid host call) are modelled from the
specification, each marked `Modelled from the spec:` in its doc comment.
-/

namespace Lunatic

/-- Outcome of a unit-local computation step: it can be blocked waiting for a
message, aborted by a panic (a failed `unwrap`, or a fatal decode mismatch),
or finished with a value. -/
inductive Res (α : Type) where
  | blocked
  | panicked
  | ok (val : α)
deriving Repr, DecidableEq

/-- Modelled from the spec: the per-unit tag counter backing `Tag::new()`
(§4.1, not under src/): a simple per-unit incrementing counter whose
exhaustion is treated as unreachable and not specified. -/
structure TagState where
  counter : Nat
deriving Repr, DecidableEq

/-- Modelled from the spec: `Tag::new()` returns a value different from every
previously issued value for the same unit; implemented as the incrementing
counter the spec names as sufficient. -/
def Tag.new (ts : TagState) : Nat × TagState :=
  (ts.counter, ⟨ts.counter + 1⟩)

/-- Issue `n` tags in sequence from a tag state, returning them in order
together with the final state. -/
def issueTags : TagState → Nat → List Nat × TagState
  | ts, 0 => ([], ts)
  | ts, n + 1 =>
    let (t, ts') := Tag.new ts
    let (rest, ts'') := issueTags ts' n
    (t :: rest, ts'')

/-- A pluggable serializer capability: `encode` may fail (the Rust trait
returns a `Result` which server.rs unwraps), `decode` may fail (a decode
mismatch is fatal for the receiving unit).  `W` is the wire representation. -/
structure Serializer (W : Type) (α : Type) where
  encode : α → Option W
  decode : W → Option α

/-- The identity serializer: a lossless instance of the serializer capability
whose wire representation is the value itself. -/
def idSerializer (α : Type) : Serializer α α :=
  ⟨fun a => some a, fun w => some w⟩

/-- The wire triple `(Process<R, S>, Tag, M)` that `Server::request` encodes:
a reference to the caller's own unit (its id), the fresh tag, and the
request message (server.rs line 40). -/
structure ReqTriple (M : Type) where
  replyTo : Nat
  tag : Nat
  msg : M
deriving Repr, DecidableEq

/-- A message queued in a unit's mailbox together with its host-level tag
(replies are sent with `tag_send`, so the tag travels beside the payload). -/
structure WireMsg (V : Type) where
  tag : Nat
  data : V
deriving Repr, DecidableEq

namespace Mailbox

/-- Modelled from the spec: the queue scan behind `receive_matching(tagSet)`
(§4.2, not under src/): return the first queued message whose embedded tag
belongs to the set, leaving every other message queued in order. -/
def tagScan {V : Type} (tags : List Nat) :
    List (WireMsg V) → Option (WireMsg V × List (WireMsg V))
  | [] => none
  | m :: rest =>
    if m.tag ∈ tags then
      some (m, rest)
    else
      (tagScan tags rest).map fun p => (p.1, m :: p.2)

/-- Modelled from the spec: unconditional `receive()` (§4.2, not under src/):
blocks until any message arrives; queued messages are returned in arrival
order (FIFO). -/
def receiveMsg {V : Type} :
    List (WireMsg V) → Option (WireMsg V × List (WireMsg V))
  | [] => none
  | m :: rest => some (m, rest)

/-- Modelled from the spec: `Mailbox::<R, S>::tag_receive(tags)` as used on
server.rs line 44: block until a message with a matching tag arrives, then
decode it at the expected type; a decode mismatch is a fatal local error. -/
def tag_receive {V R : Type} (ser : Serializer V R) (tags : List Nat)
    (inbox : List (WireMsg V)) : Res (R × List (WireMsg V)) :=
  match tagScan tags inbox with
  | none => .blocked
  | some (m, rest) =>
    match ser.decode m.data with
    | none => .panicked
    | some r => .ok (r, rest)

/-- Modelled from the spec: untyped-queue `receive()` for the server side,
which consumes messages without tag filtering (first queued message). -/
def receiveQ {W : Type} : List W → Option (W × List W)
  | [] => none
  | w :: rest => some (w, rest)

end Mailbox

/-- A `Server<M, R, S>` handle: the local integer id of the spawned unit
(server.rs lines 13-19; the phantom type parameters carry no data). -/
structure Server where
  id : Nat
deriving Repr, DecidableEq

namespace Server

/-- `Server::id()` (server.rs lines 26-30): ask the host for the 128-bit
globally unique identifier of the unit named by the local handle.  The host
call filling the 16 little-endian bytes is modelled from the spec as a map
from local ids to global identifiers below 2^128. -/
def gid (uuid : Nat → Nat) (s : Server) : Nat :=
  uuid s.id % 2 ^ 128

/-- `PartialEq for Server` (server.rs lines 171-178): two handles are equal
exactly when their `id()` values (global identifiers) are equal. -/
def beq (uuid : Nat → Nat) (s t : Server) : Bool :=
  Server.gid uuid s == Server.gid uuid t

/-- Modelled from the spec: hashing of a process handle is defined purely on
the global identifier (§4.3; no Hash impl is under src/, its callers are). -/
def hashOn (uuid : Nat → Nat) (hashFn : Nat → Nat) (s : Server) : Nat :=
  hashFn (Server.gid uuid s)

/-- The send phase of `Server::request` (server.rs lines 33-42): generate a
fresh tag with `Tag::new`, build a reference to the caller's own unit from
the host `this()` id, encode the triple `(thisProc, tag, message)` —
panicking if encoding fails, as `unwrap` does — and send the wire message to
`self.id`.  Returns the tag, the advanced tag state, the wire message, and
the destination id. -/
def requestSend {W M : Type} (ser : Serializer W (ReqTriple M))
    (server : Server) (selfId : Nat) (ts : TagState) (message : M) :
    Res (Nat × TagState × W × Nat) :=
  let (tag, ts') := Tag.new ts
  let thisProc : Nat := selfId
  match ser.encode ⟨thisProc, tag, message⟩ with
  | none => .panicked
  | some w => .ok (tag, ts', w, server.id)

/-- `Server::request` (server.rs lines 32-45): the send phase followed by a
receive filtered to exactly the fresh tag, over the caller's inbox as it
stands when the caller waits.  Returns the wire message that was sent, the
destination id, the decoded response, the remaining inbox, and the advanced
tag state. -/
def request {W V M R : Type} (serT : Serializer W (ReqTriple M))
    (serR : Serializer V R) (server : Server) (selfId : Nat) (ts : TagState)
    (message : M) (inboxAtWait : List (WireMsg V)) :
    Res (W × Nat × R × List (WireMsg V) × TagState) :=
  match requestSend serT server selfId ts message with
  | .blocked => .blocked
  | .panicked => .panicked
  | .ok (tag, ts', w, dest) =>
    match Mailbox.tag_receive serR [tag] inboxAtWait with
    | .blocked => .blocked
    | .panicked => .panicked
    | .ok (r, rest) => .ok (w, dest, r, rest, ts')

/-- `Server::send_init` (server.rs lines 47-57): encode the captured state —
panicking if encoding fails, as `unwrap` does — and send it to the child;
returns the wire message delivered to the child's inbox. -/
def send_init {W C : Type} (ser : Serializer W C) (message : C) : Res W :=
  match ser.encode message with
  | none => .panicked
  | some w => .ok w

end Server

/-- A `LunaticError` as built by `LunaticError::from(id)`: it carries the
identifier value the failed host call reported, for diagnostics. -/
structure LunaticError where
  code : Nat
deriving Repr, DecidableEq

/-- The result of the `inherit_spawn` host call (spawn capability, §6):
`result == 0` signals success and `id` is the new unit's local id; a nonzero
`result` signals failure and `id` is reused as a diagnostic code. -/
structure HostSpawn where
  result : Nat
  id : Nat
deriving Repr, DecidableEq

/-- The link flag `spawn` passes to the host call (server.rs lines 105-111):
`true` maps to 1, `false` to 0. -/
def spawnFlag : Bool → Nat
  | true => 1
  | false => 0

/-- The body of `spawn` after the host call returned (server.rs lines
122-139), given the statically known size of the captured-state type `C`:
on success, a zero-sized state is not transmitted at all; otherwise the
caller sends the encoded state with `send_init` as a follow-up message.  On
failure the error carries the reported identifier.  The `Option W` is the
init-state wire message delivered to the child, if any. -/
def spawnCore {W C : Type} (ser : Serializer W C) (sizeofC : Nat)
    (h : HostSpawn) (state : C) :
    Res (Except LunaticError (Server × Option W)) :=
  if h.result = 0 then
    if sizeofC = 0 then
      .ok (.ok (⟨h.id⟩, none))
    else
      match Server.send_init ser state with
      | .blocked => .blocked
      | .panicked => .panicked
      | .ok w => .ok (.ok (⟨h.id⟩, some w))
  else
    .ok (.error ⟨h.id⟩)

/-- `spawn` (server.rs lines 92-140): map the link flag, perform the host
spawn call — modelled as a spawn capability consulted at the passed flag —
and run the post-call logic. -/
def spawn {W C : Type} (link : Bool) (host : Nat → HostSpawn)
    (ser : Serializer W C) (sizeofC : Nat) (state : C) :
    Res (Except LunaticError (Server × Option W)) :=
  spawnCore ser sizeofC (host (spawnFlag link)) state

/-- `IntoProcess::spawn` for `Server` (server.rs lines 66-71): spawn without
a link. -/
def IntoProcess.spawn {W C : Type} (host : Nat → HostSpawn)
    (ser : Serializer W C) (sizeofC : Nat) (state : C) :
    Res (Except LunaticError (Server × Option W)) :=
  Lunatic.spawn false host ser sizeofC state

/-- `IntoProcessLink::spawn_link` for `Server` (server.rs lines 80-85):
spawn with the link flag set. -/
def IntoProcessLink.spawn_link {W C : Type} (host : Nat → HostSpawn)
    (ser : Serializer W C) (sizeofC : Nat) (state : C) :
    Res (Except LunaticError (Server × Option W)) :=
  Lunatic.spawn true host ser sizeofC state

/-- The init phase of `type_helper_wrapper` (server.rs lines 147-152): if
the captured-state type is zero-sized, start immediately with the
zero-initialized placeholder (`MaybeUninit::zeroed`), consuming no message;
otherwise the first action is to block receiving the state message and
decode it (a mismatch is fatal). -/
def type_helper_wrapper_init {W C : Type} (ser : Serializer W C)
    (zeroedC : C) (sizeofC : Nat) (inbox : List W) : Res (C × List W) :=
  if sizeofC = 0 then
    .ok (zeroedC, inbox)
  else
    match Mailbox.receiveQ inbox with
    | none => .blocked
    | some (w, rest) =>
      match ser.decode w with
      | none => .panicked
      | some c => .ok (c, rest)

/-- One iteration of the `type_helper_wrapper` request loop (server.rs lines
157-161): decode the received wire value as the triple `(sender, tag,
message)` — a mismatch is fatal — run the handler on the state, encode the
response and `tag_send` it back to the sender under the request's tag.
Returns the new state, the reply destination, and the tagged reply. -/
def serverLoopBody {W V C M R : Type} (serT : Serializer W (ReqTriple M))
    (serR : Serializer V R) (handler : C → M → C × R) (state : C) (w : W) :
    Res (C × Nat × WireMsg V) :=
  match serT.decode w with
  | none => .panicked
  | some t =>
    let (state', response) := handler state t.msg
    match serR.encode response with
    | none => .panicked
    | some rv => .ok (state', t.replyTo, ⟨t.tag, rv⟩)

/-- The start of a spawned server unit: the init phase of
`type_helper_wrapper` followed by the first iteration of its request loop
(receive a triple, handle it, reply). -/
def type_helper_wrapper_start {W V C M R : Type} (ser : Serializer W C)
    (serT : Serializer W (ReqTriple M)) (serR : Serializer V R)
    (zeroedC : C) (sizeofC : Nat) (handler : C → M → C × R)
    (inbox : List W) : Res (C × Nat × WireMsg V) :=
  match type_helper_wrapper_init ser zeroedC sizeofC inbox with
  | .blocked => .blocked
  | .panicked => .panicked
  | .ok (st, inbox') =>
    match Mailbox.receiveQ inbox' with
    | none => .blocked
    | some (w, _) => serverLoopBody serT serR handler st w

/-- Modelled from the spec: the host scheduler's link registry (§4.5, not
under src/ — the core only passes the link flag at spawn time and delegates
the set to the underlying scheduler). -/
structure Scheduler where
  links : List (Nat × Nat)
deriving Repr, DecidableEq

namespace Scheduler

/-- Modelled from the spec: linking is a symmetric relationship between two
execution-unit identifiers. -/
def linked (s : Scheduler) (a b : Nat) : Bool :=
  (a, b) ∈ s.links ∨ (b, a) ∈ s.links

/-- Modelled from the spec: the spawn capability registers a bidirectional
link between the spawning unit and the new unit exactly when the link flag
is 1. -/
def spawnUnit (s : Scheduler) (flag : Nat) (parent child : Nat) :
    Scheduler :=
  if flag = 1 then ⟨(parent, child) :: s.links⟩ else s

/-- Modelled from the spec: when unit `u` terminates abnormally, `u` itself
and every unit linked to `u` is unwound with a fault; unlinked units are
unaffected. -/
def faultedAfter (s : Scheduler) (u v : Nat) : Bool :=
  v == u || s.linked u v

end Scheduler

/-- A full synchronous round trip of one request through a server unit
(the caller's inbox is empty beforehand): the caller's send phase, delivery
to the server, one loop iteration, delivery of the reply, and the caller's
tag-filtered receive.  Returns the response, the advanced tag state, and
the server's new state. -/
def roundTrip {W V C M R : Type} (serT : Serializer W (ReqTriple M))
    (serR : Serializer V R) (handler : C → M → C × R) (server : Server)
    (selfId : Nat) (ts : TagState) (st : C) (message : M) :
    Res (R × TagState × C) :=
  match Server.requestSend serT server selfId ts message with
  | .blocked => .blocked
  | .panicked => .panicked
  | .ok (tag, ts', w, _) =>
    match serverLoopBody serT serR handler st w with
    | .blocked => .blocked
    | .panicked => .panicked
    | .ok (st', _, reply) =>
      match Mailbox.tag_receive serR [tag] [reply] with
      | .blocked => .blocked
      | .panicked => .panicked
      | .ok (r, _) => .ok (r, ts', st')

/-- Issue a sequence of requests through the same server, one full round
trip each, collecting the responses in order (the scenario of the
`spawn_test` unit test, server.rs lines 194-204). -/
def runRequests {W V C M R : Type} (serT : Serializer W (ReqTriple M))
    (serR : Serializer V R) (handler : C → M → C × R) (server : Server)
    (selfId : Nat) : TagState → C → List M → Res (List R × TagState × C)
  | ts, st, [] => .ok ([], ts, st)
  | ts, st, m :: ms =>
    match roundTrip serT serR handler server selfId ts st m with
    | .blocked => .blocked
    | .panicked => .panicked
    | .ok (r, ts', st') =>
      match runRequests serT serR handler server selfId ts' st' ms with
      | .blocked => .blocked
      | .panicked => .panicked
      | .ok (rs, ts'', st'') => .ok (r :: rs, ts'', st'')

/-- The accumulator handler of the `spawn_test` unit test (server.rs lines
196-199): add the message to the state and return the new state. -/
def accHandler : Int → Int → Int × Int :=
  fun state message => (state + message, state + message)

/-- The init-state wire message a spawn outcome carried to the child, if
any: an observer of the spawn result used to reason about the handshake. -/
def spawnInitMsg {W : Type} :
    Res (Except LunaticError (Server × Option W)) → Option W
  | .ok (.ok (_, some w)) => some w
  | _ => none

/-- A concrete wire type for whole-system instances: a server inbox holds
either an init-state payload or a request triple. -/
inductive WireInt where
  | st (c : Int)
  | req (t : ReqTriple Int)
deriving Repr, DecidableEq

/-- A concrete serializer instance for `Int` captured state over `WireInt`. -/
def serCInt : Serializer WireInt Int where
  encode := fun c => some (.st c)
  decode := fun w => match w with | .st c => some c | .req _ => none

/-- A concrete serializer instance for request triples over `WireInt`. -/
def serTInt : Serializer WireInt (ReqTriple Int) where
  encode := fun t => some (.req t)
  decode := fun w => match w with | .st _ => none | .req t => some t

/-- A serializer instance whose encode always fails, exercising the panic
branch of the `unwrap` calls. -/
def failSerializer (W α : Type) : Serializer W α :=
  ⟨fun _ => none, fun _ => none⟩

/-! Helper lemmas shared by the claim theorems. -/

lemma issueTags_eq (n : Nat) :
    ∀ ts : TagState,
      issueTags ts n = (List.range' ts.counter n 1, ⟨ts.counter + n⟩) := by
  induction n with
  | zero => intro ts; simp [issueTags]
  | succ k ih =>
    intro ts
    have h2 : ts.counter + 1 + k = ts.counter + (k + 1) := by omega
    simp only [issueTags, Tag.new, ih ⟨ts.counter + 1⟩, List.range'_succ, h2]

lemma tagScan_skip {V : Type} (tags : List Nat) :
    ∀ pre : List (WireMsg V), (∀ x ∈ pre, x.tag ∉ tags) →
      ∀ rest : List (WireMsg V),
        Mailbox.tagScan tags (pre ++ rest) =
          (Mailbox.tagScan tags rest).map fun p => (p.1, pre ++ p.2) := by
  intro pre
  induction pre with
  | nil =>
    intro _ rest
    simp only [List.nil_append]
    cases h : Mailbox.tagScan tags rest with
    | none => simp [h]
    | some p => simp [h]
  | cons y ys ih =>
    intro hpre rest
    have hy : y.tag ∉ tags := hpre y (by simp)
    have hys : ∀ x ∈ ys, x.tag ∉ tags := fun x hx => hpre x (by simp [hx])
    simp only [List.cons_append, Mailbox.tagScan, if_neg hy, ih hys rest]
    cases h : Mailbox.tagScan tags rest with
    | none => simp [ih hys rest, h]
    | some p => simp [ih hys rest, h]

lemma tagScan_none {V : Type} (tags : List Nat) :
    ∀ inbox : List (WireMsg V), (∀ x ∈ inbox, x.tag ∉ tags) →
      Mailbox.tagScan tags inbox = none := by
  intro inbox
  induction inbox with
  | nil => intro _; rfl
  | cons y ys ih =>
    intro hall
    have hy : y.tag ∉ tags := hall y (by simp)
    have hys : ∀ x ∈ ys, x.tag ∉ tags := fun x hx => hall x (by simp [hx])
    simp [Mailbox.tagScan, if_neg hy, ih hys]

/-! Claim theorems. -/

/-- C5: for any single unit issuing N requests before any reply arrives, the
N tags generated by those requests are pairwise distinct: `Tag::new()` never
returns a value equal to any previously issued tag within the lifetime of
the generating unit. -/
theorem tags_pairwise_distinct (ts : TagState) (n : Nat) :
    (issueTags ts n).1.Nodup := by
  rw [issueTags_eq]
  exact List.nodup_range' ts.counter n

/-- C6: the tag-filtered receive used by `request` consumes exactly the
message whose embedded tag is in the given tag set; messages with
non-matching tags that arrived earlier remain queued in order, and a later
unrestricted receive still observes the first of them. -/
theorem tag_receive_selective {V R : Type} (ser : Serializer V R)
    (tags : List Nat) (pre post : List (WireMsg V)) (m : WireMsg V)
    (hpre : ∀ x ∈ pre, x.tag ∉ tags) (hm : m.tag ∈ tags) (r : R)
    (hdec : ser.decode m.data = some r) :
    Mailbox.tagScan tags (pre ++ m :: post) = some (m, pre ++ post) ∧
      Mailbox.tag_receive ser tags (pre ++ m :: post) =
        .ok (r, pre ++ post) ∧
      (∀ p pre', pre = p :: pre' →
        Mailbox.receiveMsg (pre ++ post) = some (p, pre' ++ post)) := by
  have hscan : Mailbox.tagScan tags (pre ++ m :: post) =
      some (m, pre ++ post) := by
    rw [tagScan_skip tags pre hpre]
    simp [Mailbox.tagScan, if_pos hm]
  refine ⟨hscan, ?_, ?_⟩
  · simp [Mailbox.tag_receive, hscan, hdec]
  · intro p pre' hpre'
    subst hpre'
    simp [Mailbox.receiveMsg]

/-- Witness for C6 at a concrete queue: tags {5}, one non-matching message
queued first, the matching message in the middle. -/
theorem tag_receive_selective_witness :
    Mailbox.tagScan [5] ([(⟨3, 10⟩ : WireMsg Int)] ++ ⟨5, 42⟩ :: [⟨7, 9⟩]) =
        some (⟨5, 42⟩, [⟨3, 10⟩] ++ [⟨7, 9⟩]) ∧
      Mailbox.tag_receive (idSerializer Int) [5]
          ([(⟨3, 10⟩ : WireMsg Int)] ++ ⟨5, 42⟩ :: [⟨7, 9⟩]) =
        .ok ((42 : Int), [⟨3, 10⟩] ++ [⟨7, 9⟩]) ∧
      (∀ p pre', [(⟨3, 10⟩ : WireMsg Int)] = p :: pre' →
        Mailbox.receiveMsg ([(⟨3, 10⟩ : WireMsg Int)] ++ [⟨7, 9⟩]) =
          some (p, pre' ++ [⟨7, 9⟩])) :=
  tag_receive_selective (idSerializer Int) [5] [⟨3, 10⟩] [⟨7, 9⟩] ⟨5, 42⟩
    (by decide) (by decide) 42 rfl

/-- C1: `Server::request` generates a fresh tag (the unit's counter value,
advancing the counter), encodes the triple of a reference to the caller's
own unit, the tag, and the message, sends it to the target unit's id, and
then blocks on a receive filtered to exactly that tag, returning the
decoded response when the correlated reply arrives while non-matching
messages stay queued. -/
theorem request_protocol {W V M R : Type} (serT : Serializer W (ReqTriple M))
    (serR : Serializer V R) (server : Server) (selfId : Nat) (ts : TagState)
    (message : M) (w : W)
    (henc : serT.encode ⟨selfId, ts.counter, message⟩ = some w)
    (pre post : List (WireMsg V)) (hpre : ∀ x ∈ pre, x.tag ≠ ts.counter)
    (v : V) (r : R) (hdec : serR.decode v = some r) :
    Server.requestSend serT server selfId ts message =
        .ok (ts.counter, ⟨ts.counter + 1⟩, w, server.id) ∧
      Server.request serT serR server selfId ts message
          (pre ++ ⟨ts.counter, v⟩ :: post) =
        .ok (w, server.id, r, pre ++ post, ⟨ts.counter + 1⟩) ∧
      ∀ inbox : List (WireMsg V), (∀ x ∈ inbox, x.tag ≠ ts.counter) →
        Server.request serT serR server selfId ts message inbox = .blocked := by
  have hsend : Server.requestSend serT server selfId ts message =
      .ok (ts.counter, ⟨ts.counter + 1⟩, w, server.id) := by
    simp [Server.requestSend, Tag.new, henc]
  refine ⟨hsend, ?_, ?_⟩
  · have hscan : Mailbox.tagScan [ts.counter]
        (pre ++ ⟨ts.counter, v⟩ :: post) =
        some (⟨ts.counter, v⟩, pre ++ post) := by
      rw [tagScan_skip [ts.counter] pre (by simpa using hpre)]
      simp [Mailbox.tagScan]
    simp [Server.request, hsend, Mailbox.tag_receive, hscan, hdec]
  · intro inbox hinbox
    have hscan : Mailbox.tagScan [ts.counter] inbox = none :=
      tagScan_none [ts.counter] inbox (by simpa using hinbox)
    simp [Server.request, hsend, Mailbox.tag_receive, hscan]

/-- Witness for C1 at a concrete instance: identity serializers, target unit
9, caller unit 7, tag counter 0, request 5, reply 42 queued behind a
non-matching message. -/
theorem request_protocol_witness :
    Server.requestSend (idSerializer (ReqTriple Int)) ⟨9⟩ 7 ⟨0⟩ (5 : Int) =
        .ok (0, ⟨0 + 1⟩, ⟨7, 0, 5⟩, 9) ∧
      Server.request (idSerializer (ReqTriple Int)) (idSerializer Int) ⟨9⟩ 7
          ⟨0⟩ (5 : Int) ([⟨1, 50⟩] ++ ⟨0, 42⟩ :: []) =
        .ok (⟨7, 0, 5⟩, 9, 42, [⟨1, 50⟩] ++ [], ⟨0 + 1⟩) ∧
      ∀ inbox : List (WireMsg Int), (∀ x ∈ inbox, x.tag ≠ 0) →
        Server.request (idSerializer (ReqTriple Int)) (idSerializer Int) ⟨9⟩
          7 ⟨0⟩ (5 : Int) inbox = .blocked :=
  request_protocol (idSerializer (ReqTriple Int)) (idSerializer Int) ⟨9⟩ 7
    ⟨0⟩ 5 ⟨7, 0, 5⟩ rfl [⟨1, 50⟩] [] (by decide) 42 42 rfl

/-- C2: for a zero-sized captured-state type, spawn transmits no state
message and the spawned unit starts immediately with the zero-initialized
placeholder; otherwise, after a successful spawn the caller sends the
encoded state as a follow-up message and the spawned unit's first action is
to block receiving that state message before entering its request loop. -/
theorem spawn_state_handshake {W V C M R : Type} (ser : Serializer W C)
    (serT : Serializer W (ReqTriple M)) (serR : Serializer V R)
    (h : HostSpawn) (hres : h.result = 0) (zeroedC : C) (st : C)
    (sizeofC : Nat) (w : W) (henc : ser.encode st = some w)
    (hdec : ser.decode w = some st) (handler : C → M → C × R)
    (inbox : List W) (wReq : W) (rest : List W) :
    spawnCore ser 0 h st = .ok (.ok (⟨h.id⟩, none)) ∧
      type_helper_wrapper_init ser zeroedC 0 inbox = .ok (zeroedC, inbox) ∧
      type_helper_wrapper_start ser serT serR zeroedC 0 handler
          (wReq :: rest) = serverLoopBody serT serR handler zeroedC wReq ∧
      (sizeofC ≠ 0 →
        spawnCore ser sizeofC h st = .ok (.ok (⟨h.id⟩, some w)) ∧
          type_helper_wrapper_init ser zeroedC sizeofC [] = .blocked ∧
          type_helper_wrapper_start ser serT serR zeroedC sizeofC handler
            (w :: wReq :: rest) = serverLoopBody serT serR handler st wReq) := by
  refine ⟨?_, ?_, ?_, ?_⟩
  · simp [spawnCore, hres]
  · simp [type_helper_wrapper_init]
  · simp [type_helper_wrapper_start, type_helper_wrapper_init,
          Mailbox.receiveQ]
  · intro hsz
    refine ⟨?_, ?_, ?_⟩
    · simp [spawnCore, hres, hsz, Server.send_init, henc]
    · simp [type_helper_wrapper_init, hsz, Mailbox.receiveQ]
    · simp [type_helper_wrapper_start, type_helper_wrapper_init, hsz,
            Mailbox.receiveQ, hdec]

/-- Witness for C2 at a concrete instance: Int state 10 over the `WireInt`
wire type, host result 0 with new unit id 4, state size 8 for the non-zero
branch. -/
theorem spawn_state_handshake_witness :
    spawnCore serCInt 0 ⟨0, 4⟩ (10 : Int) = .ok (.ok (⟨4⟩, none)) ∧
      type_helper_wrapper_init serCInt (0 : Int) 0 [] = .ok ((0 : Int), []) ∧
      type_helper_wrapper_start serCInt serTInt (idSerializer Int) (0 : Int)
          0 accHandler (WireInt.req ⟨7, 0, 5⟩ :: []) =
        serverLoopBody serTInt (idSerializer Int) accHandler 0
          (WireInt.req ⟨7, 0, 5⟩) ∧
      ((8 : Nat) ≠ 0 →
        spawnCore serCInt 8 ⟨0, 4⟩ (10 : Int) =
            .ok (.ok (⟨4⟩, some (WireInt.st 10))) ∧
          type_helper_wrapper_init serCInt (0 : Int) 8 [] = .blocked ∧
          type_helper_wrapper_start serCInt serTInt (idSerializer Int)
              (0 : Int) 8 accHandler
              (WireInt.st 10 :: WireInt.req ⟨7, 0, 5⟩ :: []) =
            serverLoopBody serTInt (idSerializer Int) accHandler 10
              (WireInt.req ⟨7, 0, 5⟩)) :=
  spawn_state_handshake serCInt serTInt (idSerializer Int) ⟨0, 4⟩ rfl 0 10 8
    (WireInt.st 10) rfl rfl accHandler [] (WireInt.req ⟨7, 0, 5⟩) []

/-- C3: a spawned accumulator server that starts at 0 and adds each incoming
request to its state returns, after requests 1, 2, 3 in order, responses
1, 3, 6 respectively — the state persists and accumulates across successive
requests from a single caller. -/
theorem accumulator_responses (ts : TagState) (selfId srvId : Nat) :
    runRequests (idSerializer (ReqTriple Int)) (idSerializer Int) accHandler
      ⟨srvId⟩ selfId ts 0 [1, 2, 3] =
      .ok ([1, 3, 6], ⟨ts.counter + 3⟩, 6) := by
  simp [runRequests, roundTrip, Server.requestSend, Tag.new, serverLoopBody,
        Mailbox.tag_receive, Mailbox.tagScan, idSerializer, accHandler]

/-- C4: a nonzero result code from the unit-allocation host call makes spawn
return an error built from the reported identifier value, without
panicking; a zero result code makes spawn return Ok with a handle holding
the new unit's id. -/
theorem spawn_error_result {W C : Type} (link : Bool)
    (host : Nat → HostSpawn) (ser : Serializer W C) (sizeofC : Nat) (st : C)
    (w : W) (henc : ser.encode st = some w) :
    ((host (spawnFlag link)).result ≠ 0 →
      spawn link host ser sizeofC st =
        .ok (.error ⟨(host (spawnFlag link)).id⟩)) ∧
      ((host (spawnFlag link)).result = 0 →
        spawn link host ser sizeofC st =
          .ok (.ok (⟨(host (spawnFlag link)).id⟩,
            if sizeofC = 0 then none else some w))) := by
  constructor
  · intro hr
    simp [spawn, spawnCore, hr]
  · intro hr
    by_cases hsz : sizeofC = 0 <;>
      simp [spawn, spawnCore, hr, hsz, Server.send_init, henc]

/-- Witness for C4 at a concrete instance: a host refusing with result code
3 and diagnostic id 55, linked spawn of Int state 9. -/
theorem spawn_error_result_witness :
    (((fun _ : Nat => (⟨3, 55⟩ : HostSpawn)) (spawnFlag true)).result ≠ 0 →
      spawn true (fun _ => ⟨3, 55⟩) (idSerializer Int) 4 (9 : Int) =
        .ok (.error ⟨((fun _ : Nat => (⟨3, 55⟩ : HostSpawn))
          (spawnFlag true)).id⟩)) ∧
      (((fun _ : Nat => (⟨3, 55⟩ : HostSpawn)) (spawnFlag true)).result = 0 →
        spawn true (fun _ => ⟨3, 55⟩) (idSerializer Int) 4 (9 : Int) =
          .ok (.ok (⟨((fun _ : Nat => (⟨3, 55⟩ : HostSpawn))
            (spawnFlag true)).id⟩, if (4 : Nat) = 0 then none
              else some (9 : Int)))) :=
  spawn_error_result true (fun _ => ⟨3, 55⟩) (idSerializer Int) 4 9 9 rfl

/-- C9: spawn is atomic with respect to the state-transfer handshake — on a
nonzero result code it returns the error without sending the init-state
message, and an init-state message is sent only after a successful
allocation and only for a state type of nonzero size. -/
theorem spawn_init_only_after_success {W C : Type} (ser : Serializer W C)
    (sizeofC : Nat) (h : HostSpawn) (st : C) :
    (h.result ≠ 0 →
      spawnCore ser sizeofC h st = .ok (.error ⟨h.id⟩) ∧
        spawnInitMsg (spawnCore ser sizeofC h st) = none) ∧
      (sizeofC = 0 → spawnInitMsg (spawnCore ser sizeofC h st) = none) ∧
      ∀ w, spawnInitMsg (spawnCore ser sizeofC h st) = some w →
        h.result = 0 ∧ sizeofC ≠ 0 ∧ ser.encode st = some w := by
  refine ⟨?_, ?_, ?_⟩
  · intro hr
    constructor
    · simp [spawnCore, hr]
    · simp [spawnCore, hr, spawnInitMsg]
  · intro hsz
    by_cases hr : h.result = 0 <;>
      simp [spawnCore, hr, hsz, spawnInitMsg]
  · intro w hw
    by_cases hr : h.result = 0
    · by_cases hsz : sizeofC = 0
      · simp [spawnCore, hr, hsz, spawnInitMsg] at hw
      · cases henc : ser.encode st with
        | none =>
          simp [spawnCore, hr, hsz, Server.send_init, henc,
                spawnInitMsg] at hw
        | some w' =>
          simp [spawnCore, hr, hsz, Server.send_init, henc,
                spawnInitMsg] at hw
          exact ⟨hr, hsz, by rw [hw]⟩
    · simp [spawnCore, hr, spawnInitMsg] at hw

/-- Witness for C9 at a concrete instance: a host refusing with result code
2 and diagnostic id 13. -/
theorem spawn_init_only_after_success_witness :
    ((⟨2, 13⟩ : HostSpawn).result ≠ 0 →
      spawnCore (idSerializer Int) 4 ⟨2, 13⟩ (1 : Int) =
          .ok (.error ⟨13⟩) ∧
        spawnInitMsg (spawnCore (idSerializer Int) 4 ⟨2, 13⟩ (1 : Int)) =
          none) ∧
      ((4 : Nat) = 0 →
        spawnInitMsg (spawnCore (idSerializer Int) 4 ⟨2, 13⟩ (1 : Int)) =
          none) ∧
      ∀ w, spawnInitMsg (spawnCore (idSerializer Int) 4 ⟨2, 13⟩ (1 : Int)) =
          some w →
        (⟨2, 13⟩ : HostSpawn).result = 0 ∧ (4 : Nat) ≠ 0 ∧
          (idSerializer Int).encode 1 = some w :=
  spawn_init_only_after_success (idSerializer Int) 4 ⟨2, 13⟩ 1

/-- C7: `spawn_link` consults the spawn capability with link flag 1 (plain
spawn with flag 0); spawning with flag 1 establishes a bidirectional link
between the spawning unit and the new unit, so the abnormal termination of
either linked unit unwinds the other with a fault, whereas a unit spawned
without the link flag under identical conditions is unaffected. -/
theorem spawn_link_propagation {W C : Type} (host : Nat → HostSpawn)
    (ser : Serializer W C) (sizeofC : Nat) (st : C) (s : Scheduler)
    (p c : Nat) (hpc : p ≠ c) (hnl : s.linked p c = false) :
    IntoProcessLink.spawn_link host ser sizeofC st =
        spawnCore ser sizeofC (host 1) st ∧
      IntoProcess.spawn host ser sizeofC st =
        spawnCore ser sizeofC (host 0) st ∧
      (s.spawnUnit (spawnFlag true) p c).linked p c = true ∧
      (s.spawnUnit (spawnFlag true) p c).linked c p = true ∧
      (s.spawnUnit (spawnFlag true) p c).faultedAfter c p = true ∧
      (s.spawnUnit (spawnFlag true) p c).faultedAfter p c = true ∧
      (s.spawnUnit (spawnFlag false) p c).faultedAfter c p = false ∧
      (s.spawnUnit (spawnFlag false) p c).faultedAfter p c = false := by
  have hmem : ((p, c) ∉ s.links) ∧ ((c, p) ∉ s.links) := by
    constructor <;> intro hx <;>
      simp [Scheduler.linked, hx] at hnl
  refine ⟨rfl, rfl, ?_, ?_, ?_, ?_, ?_, ?_⟩
  · simp [Scheduler.spawnUnit, spawnFlag, Scheduler.linked]
  · simp [Scheduler.spawnUnit, spawnFlag, Scheduler.linked]
  · simp [Scheduler.spawnUnit, spawnFlag, Scheduler.faultedAfter,
          Scheduler.linked]
  · simp [Scheduler.spawnUnit, spawnFlag, Scheduler.faultedAfter,
          Scheduler.linked]
  · simp [Scheduler.spawnUnit, spawnFlag, Scheduler.faultedAfter,
          Scheduler.linked, hpc, Ne.symm hpc, hmem.1, hmem.2]
  · simp [Scheduler.spawnUnit, spawnFlag, Scheduler.faultedAfter,
          Scheduler.linked, hpc, Ne.symm hpc, hmem.1, hmem.2]

/-- Witness for C7 at a concrete instance: an empty link registry, spawning
unit 1 and new unit 2. -/
theorem spawn_link_propagation_witness :
    IntoProcessLink.spawn_link (fun f => (⟨0, f⟩ : HostSpawn))
        (idSerializer Int) 0 (3 : Int) =
      spawnCore (idSerializer Int) 0
        ((fun f => (⟨0, f⟩ : HostSpawn)) 1) (3 : Int) ∧
      IntoProcess.spawn (fun f => (⟨0, f⟩ : HostSpawn)) (idSerializer Int) 0
          (3 : Int) =
        spawnCore (idSerializer Int) 0
          ((fun f => (⟨0, f⟩ : HostSpawn)) 0) (3 : Int) ∧
      ((⟨[]⟩ : Scheduler).spawnUnit (spawnFlag true) 1 2).linked 1 2 =
        true ∧
      ((⟨[]⟩ : Scheduler).spawnUnit (spawnFlag true) 1 2).linked 2 1 =
        true ∧
      ((⟨[]⟩ : Scheduler).spawnUnit (spawnFlag true) 1 2).faultedAfter 2 1 =
        true ∧
      ((⟨[]⟩ : Scheduler).spawnUnit (spawnFlag true) 1 2).faultedAfter 1 2 =
        true ∧
      ((⟨[]⟩ : Scheduler).spawnUnit (spawnFlag false) 1 2).faultedAfter 2 1 =
        false ∧
      ((⟨[]⟩ : Scheduler).spawnUnit (spawnFlag false) 1 2).faultedAfter 1 2 =
        false :=
  spawn_link_propagation (fun f => ⟨0, f⟩) (idSerializer Int) 0 3 ⟨[]⟩ 1 2
    (by decide) (by decide)

/-- C8: two Server handles compare equal exactly when their global 128-bit
identifiers (as returned by `id()`) are equal; hashing is likewise defined
purely on the global identifier; equality is not equality of the local
integer handle, as distinct local handles with the same global identifier
compare equal. -/
theorem server_eq_hash_by_gid (uuid : Nat → Nat) (hashFn : Nat → Nat)
    (s t : Server) :
    (Server.beq uuid s t = true ↔
        Server.gid uuid s = Server.gid uuid t) ∧
      (Server.gid uuid s = Server.gid uuid t →
        Server.hashOn uuid hashFn s = Server.hashOn uuid hashFn t) ∧
      ∃ u : Nat → Nat, ∃ a b : Server, a.id ≠ b.id ∧
        Server.beq u a b = true := by
  refine ⟨?_, ?_, ?_⟩
  · simp [Server.beq]
  · intro hg
    simp [Server.hashOn, hg]
  · exact ⟨fun _ => 0, ⟨0⟩, ⟨1⟩, by decide, by decide⟩

/-- Witness for C8 at a concrete instance: a uuid map shifting the local id
by one, a doubling hash, handles 5 and 6. -/
theorem server_eq_hash_by_gid_witness :
    (Server.beq (fun n => n + 1) ⟨5⟩ ⟨6⟩ = true ↔
        Server.gid (fun n => n + 1) ⟨5⟩ = Server.gid (fun n => n + 1) ⟨6⟩) ∧
      (Server.gid (fun n => n + 1) ⟨5⟩ = Server.gid (fun n => n + 1) ⟨6⟩ →
        Server.hashOn (fun n => n + 1) (fun n => 2 * n) ⟨5⟩ =
          Server.hashOn (fun n => n + 1) (fun n => 2 * n) ⟨6⟩) ∧
      ∃ u : Nat → Nat, ∃ a b : Server, a.id ≠ b.id ∧
        Server.beq u a b = true :=
  server_eq_hash_by_gid (fun n => n + 1) (fun n => 2 * n) ⟨5⟩ ⟨6⟩

/-- C10: if the serializer's encode operation fails while building an
outbound message, both `request` and `send_init` panic in the calling unit
(the encode result is unwrapped) rather than returning a recoverable error
value; when encoding succeeds this panic branch is unreachable. -/
theorem encode_failure_panics {W V C M R : Type}
    (serT : Serializer W (ReqTriple M)) (serR : Serializer V R)
    (serC : Serializer W C) (server : Server) (selfId : Nat) (ts : TagState)
    (message : M) (c : C) (inbox : List (WireMsg V)) :
    (serT.encode ⟨selfId, ts.counter, message⟩ = none →
      Server.requestSend serT server selfId ts message = .panicked ∧
        Server.request serT serR server selfId ts message inbox =
          .panicked) ∧
      (serC.encode c = none → Server.send_init serC c = .panicked) ∧
      (∀ w, serT.encode ⟨selfId, ts.counter, message⟩ = some w →
        Server.requestSend serT server selfId ts message ≠ .panicked) ∧
      ∀ w, serC.encode c = some w → Server.send_init serC c = .ok w := by
  refine ⟨?_, ?_, ?_, ?_⟩
  · intro henc
    have hsend : Server.requestSend serT server selfId ts message =
        .panicked := by
      simp [Server.requestSend, Tag.new, henc]
    exact ⟨hsend, by simp [Server.request, hsend]⟩
  · intro henc
    simp [Server.send_init, henc]
  · intro w henc
    simp [Server.requestSend, Tag.new, henc]
  · intro w henc
    simp [Server.send_init, henc]

/-- Witness for C10 at a concrete instance: the always-failing serializer
for requests and for the captured state. -/
theorem encode_failure_panics_witness :
    ((failSerializer Unit (ReqTriple Int)).encode ⟨7, 0, 5⟩ = none →
      Server.requestSend (failSerializer Unit (ReqTriple Int)) ⟨9⟩ 7 ⟨0⟩
          (5 : Int) = .panicked ∧
        Server.request (failSerializer Unit (ReqTriple Int))
          (failSerializer Unit Int) ⟨9⟩ 7 ⟨0⟩ (5 : Int) [] = .panicked) ∧
      ((failSerializer Unit Int).encode 1 = none →
        Server.send_init (failSerializer Unit Int) (1 : Int) = .panicked) ∧
      (∀ w, (failSerializer Unit (ReqTriple Int)).encode ⟨7, 0, 5⟩ =
          some w →
        Server.requestSend (failSerializer Unit (ReqTriple Int)) ⟨9⟩ 7 ⟨0⟩
          (5 : Int) ≠ .panicked) ∧
      ∀ w, (failSerializer Unit Int).encode 1 = some w →
        Server.send_init (failSerializer Unit Int) (1 : Int) = .ok w :=
  encode_failure_panics (failSerializer Unit (ReqTriple Int))
    (failSerializer Unit Int) (failSerializer Unit Int) ⟨9⟩ 7 ⟨0⟩ 5 1 []

end Lunatic
